import Mathlib

set_option maxHeartbeats 1000000

/- Shallow embedding of the WORHP plugin wrapper of this repository
   (include/pagmo_plugins_nonfree/worhp.hpp).  The wrapper drives the external
   WORHP solver through its reverse-communication protocol.  The external
   solver library, the pagmo problem/population classes and the
   not_population_based base class are collaborators outside this repository;
   they are embedded as abstract function parameters.  Real numbers
   (vector_double entries) are modelled over the rationals. -/

/-- Vectors of reals (pagmo vector_double), modelled over ℚ. -/
abbrev V := List ℚ

/-- Modelled from the spec: the request flags of the reverse-communication
protocol (the constants callWorhp, iterOutput, evalF, evalG, fidif come from
the worhp header, which is part of this repository but not under src). -/
inductive UserAction where
  | callWorhp
  | iterOutput
  | evalF
  | evalG
  | fidif
deriving DecidableEq, Repr

/-- The OptVar record, with exactly the fields the wrapper reads or writes:
opt.n, opt.m, opt.X, opt.F, opt.G, opt.XL, opt.XU, opt.«GL», opt.GU. -/
structure OptVar where
  n : Nat
  m : Nat
  X : V
  F : ℚ
  G : V
  XL : V
  XU : V
  «GL» : V
  GU : V
deriving DecidableEq, Repr

/-- A WORHP derivative matrix; the wrapper only touches its nnz field. -/
structure WorhpMatrix where
  nnz : Int
deriving DecidableEq, Repr

/-- The Workspace record: the wrapper reads ScaleObj and writes the three
derivative-matrix nnz declarations. -/
structure Workspace where
  ScaleObj : ℚ
  DF : WorhpMatrix
  DG : WorhpMatrix
  HM : WorhpMatrix
deriving DecidableEq, Repr

/-- The Params record, with the fields the wrapper touches.  TolFeas is
modelled from the spec: it is the feasibility-tolerance parameter named by the
spec (the full field list of Params lives in the worhp header, which is part
of this repository but not under src); the wrapper itself names only UserDF,
UserDG, UserHM, UserHMstructure, InitialLMest and Infty. -/
structure Params where
  UserDF : Bool
  UserDG : Bool
  UserHM : Bool
  UserHMstructure : Bool
  InitialLMest : Bool
  Infty : ℚ
  TolFeas : ℚ
deriving DecidableEq, Repr

/-- The Control record.  The wrapper reads cnt.status; `pending` is modelled
from the spec (the set of pending-action flags, stored inside Control by the
external library and accessed only through GetUserAction / DoneUserAction). -/
structure Control where
  status : Int
  pending : List UserAction
deriving DecidableEq, Repr

/-- The four solver records threaded through one evolve call. -/
structure RCState where
  opt : OptVar
  wsp : Workspace
  par : Params
  cnt : Control
deriving DecidableEq, Repr

/-- Modelled from the spec: the success terminal sentinel of the status code
(defined in the worhp header, which is part of this repository but not under
src).  The driver only compares status against the two sentinels, so only
TerminateError < TerminateSuccess matters. -/
def TerminateSuccess : Int := 1

/-- Modelled from the spec: the error terminal sentinel of the status code. -/
def TerminateError : Int := -1

/-- Modelled from the spec: the dense derivative-matrix declaration sentinel
WorhpMatrix_Init_Dense from the worhp header; its concrete value is opaque to
the driver. -/
def WorhpMatrix_Init_Dense : Int := -1

/-- The host problem interface consumed by the wrapper (pagmo::problem is an
external collaborator; fitness may throw, which is modelled by Except). -/
structure Problem where
  nx : Nat
  nobj : Nat
  nec : Nat
  nic : Nat
  lb : V
  ub : V
  fitness : V → Except String V
  c_tol : V
  stochastic : Bool
  name : String

/-- Total number of constraints (pagmo problem::get_nc). -/
def Problem.nc (p : Problem) : Nat := p.nec + p.nic

/-- Fitness dimension (pagmo problem::get_nf). -/
def Problem.nf (p : Problem) : Nat := p.nobj + p.nc

/-- A pagmo population: the problem plus the individuals (decision vector,
fitness vector). -/
structure Population where
  prob : Problem
  xs : List (V × V)

/-- Population size. -/
def Population.size (p : Population) : Nat := p.xs.length

/-- The ten entry points bound from the worhp shared library, as abstract
state transformers over the four records (the library is an external
collaborator; each routine receives pointers to all four records and may
rewrite them arbitrarily).  GetUserAction reads the Control record only;
DoneUserAction may rewrite the Control record and returns a bool that the
driver discards. -/
structure Capability where
  WorhpPreInit : RCState → RCState
  WorhpInit : RCState → RCState
  ReadParams : String → Params → Int × Params
  GetUserAction : Control → UserAction → Bool
  DoneUserAction : Control → UserAction → Bool × Control
  IterationOutput : RCState → RCState
  Worhp : RCState → RCState
  StatusMsg : RCState → RCState
  WorhpFree : RCState → RCState
  WorhpFidif : RCState → RCState

/-- The external collaborators of one evolve call: the outcome of the
boost.dll load-and-bind step, the filesystem check, the raw (not yet
pre-initialised) record contents, the inherited selection/replacement policies
and pagmo::compare_fc, and a fuel bound modelling the unbounded while loop. -/
structure Env where
  cap : Except String Capability
  isRegularFile : Bool
  raw : RCState
  fuel : Nat
  select_individual : Population → V × V
  replace_individual : Population → V → V → Population
  compare_fc : V → V → Nat → V → Bool

/-- The worhp algorithm object (the UDA): its data members. -/
structure WorhpAlg where
  worhp_library : String
  screen_output : Bool
  verbosity : Nat

/-- Fields of Params written by the driver (used to log parameter writes). -/
inductive ParField where
  | UserDF
  | UserDG
  | UserHM
  | UserHMstructure
  | InitialLMest
  | TolFeas
deriving DecidableEq, Repr

/-- Observable events of one evolve call: the library load attempt, the calls
into the solver capability, the polls and acknowledgments, the two adapter
evaluations, and every write the driver performs on the Params record. -/
inductive Event where
  | libLoad
  | preInit
  | readParams
  | init
  | parWrite (f : ParField)
  | poll (a : UserAction) (res : Bool)
  | callWorhp
  | iterOutput
  | evalF
  | evalG
  | fidif
  | ack (a : UserAction)
  | statusMsg
  | free
deriving DecidableEq, Repr

/-- Outcome of a (partial) run: a value, a propagated C++ exception, or
divergence (the while loop never reaching a terminal status). -/
inductive Outcome (α : Type) where
  | ok (a : α)
  | exn (e : String)
  | diverge
deriving DecidableEq, Repr

/-- Number of occurrences of an event in a trace. -/
def countE (e : Event) (t : List Event) : Nat :=
  (t.filter (fun x => decide (x = e))).length

/-- The sequence of actions polled in a trace, in order. -/
def polls (t : List Event) : List UserAction :=
  t.filterMap (fun e => match e with | .poll a _ => some a | _ => none)

/-- The action event performed for each request flag. -/
def actionEvent : UserAction → Event
  | .callWorhp => .callWorhp
  | .iterOutput => .iterOutput
  | .evalF => .evalF
  | .evalG => .evalG
  | .fidif => .fidif

/-- The fixed priority order in which the driver polls the five flags. -/
def pollOrder : List UserAction :=
  [.callWorhp, .iterOutput, .evalF, .evalG, .fidif]

/-- A C-style write loop: arr[i] = f i for i in [lo, hi).  Writes past the end
of the list are dropped (the C code would be out of bounds there). -/
def writeRange (arr : V) (lo hi : Nat) (f : Nat → ℚ) : V :=
  (List.range' lo (hi - lo)).foldl (fun a i => a.set i (f i)) arr

/-- worhp::UserF: read the decision vector, evaluate the host fitness, write
ScaleObj * f[0] into opt.F.  Mirrors worhp.hpp lines 580-588. -/
def UserF (prob : Problem) (s : RCState) : Except String RCState :=
  let x := s.opt.X.take prob.nx
  (prob.fitness x).map fun f =>
    { s with opt := { s.opt with F := s.wsp.ScaleObj * f.getD 0 0 } }

/-- worhp::UserG: read the decision vector, evaluate the host fitness, write
f[i+1] into opt.G[i] for i < nc.  Mirrors worhp.hpp lines 590-600. -/
def UserG (prob : Problem) (s : RCState) : Except String RCState :=
  let x := s.opt.X.take prob.nx
  (prob.fitness x).map fun f =>
    { s with opt := { s.opt with
        G := writeRange s.opt.G 0 prob.nc (fun i => f.getD (i + 1) 0) } }

/-- Sequencing of trace-producing fallible steps. -/
def andThen (r : List Event × Outcome RCState)
    (k : RCState → List Event × Outcome RCState) : List Event × Outcome RCState :=
  match r with
  | (t, Outcome.ok s) => (t ++ (k s).1, (k s).2)
  | (t, Outcome.exn e) => (t, Outcome.exn e)
  | (t, Outcome.diverge) => (t, Outcome.diverge)

/-- Loop turn, flag 1: callWorhp.  Call Worhp, no DoneUserAction. -/
def stepCallWorhp (cap : Capability) (s : RCState) : List Event × Outcome RCState :=
  if cap.GetUserAction s.cnt .callWorhp then
    ([Event.poll .callWorhp true, Event.callWorhp], Outcome.ok (cap.Worhp s))
  else
    ([Event.poll .callWorhp false], Outcome.ok s)

/-- Loop turn, flag 2: iterOutput.  Call IterationOutput, then acknowledge. -/
def stepIterOutput (cap : Capability) (s : RCState) : List Event × Outcome RCState :=
  if cap.GetUserAction s.cnt .iterOutput then
    let sa := cap.IterationOutput s
    let sb := { sa with cnt := (cap.DoneUserAction sa.cnt .iterOutput).2 }
    ([Event.poll .iterOutput true, Event.iterOutput, Event.ack .iterOutput], Outcome.ok sb)
  else
    ([Event.poll .iterOutput false], Outcome.ok s)

/-- Loop turn, flag 3: evalF.  Call UserF, then acknowledge; a fitness
exception propagates before the acknowledgment. -/
def stepEvalF (cap : Capability) (prob : Problem) (s : RCState) :
    List Event × Outcome RCState :=
  if cap.GetUserAction s.cnt .evalF then
    match UserF prob s with
    | .error e => ([Event.poll .evalF true, Event.evalF], Outcome.exn e)
    | .ok sa =>
      let sb := { sa with cnt := (cap.DoneUserAction sa.cnt .evalF).2 }
      ([Event.poll .evalF true, Event.evalF, Event.ack .evalF], Outcome.ok sb)
  else
    ([Event.poll .evalF false], Outcome.ok s)

/-- Loop turn, flag 4: evalG.  Call UserG, then acknowledge; a fitness
exception propagates before the acknowledgment. -/
def stepEvalG (cap : Capability) (prob : Problem) (s : RCState) :
    List Event × Outcome RCState :=
  if cap.GetUserAction s.cnt .evalG then
    match UserG prob s with
    | .error e => ([Event.poll .evalG true, Event.evalG], Outcome.exn e)
    | .ok sa =>
      let sb := { sa with cnt := (cap.DoneUserAction sa.cnt .evalG).2 }
      ([Event.poll .evalG true, Event.evalG, Event.ack .evalG], Outcome.ok sb)
  else
    ([Event.poll .evalG false], Outcome.ok s)

/-- Loop turn, flag 5: fidif.  Call WorhpFidif, no DoneUserAction. -/
def stepFidif (cap : Capability) (s : RCState) : List Event × Outcome RCState :=
  if cap.GetUserAction s.cnt .fidif then
    ([Event.poll .fidif true, Event.fidif], Outcome.ok (cap.WorhpFidif s))
  else
    ([Event.poll .fidif false], Outcome.ok s)

/-- One turn of the reverse-communication loop: the five checks in the fixed
order of worhp.hpp lines 384-428. -/
def rcTurn (cap : Capability) (prob : Problem) (s : RCState) :
    List Event × Outcome RCState :=
  andThen (stepCallWorhp cap s) (fun s1 =>
  andThen (stepIterOutput cap s1) (fun s2 =>
  andThen (stepEvalF cap prob s2) (fun s3 =>
  andThen (stepEvalG cap prob s3) (fun s4 =>
  stepFidif cap s4))))

/-- The reverse-communication loop (worhp.hpp line 378): it re-reads
cnt.status before every turn and keeps running exactly while
status < TerminateSuccess and status > TerminateError.  The unbounded C++
while loop is modelled with fuel; running out of fuel is divergence. -/
def rcLoop (cap : Capability) (prob : Problem) : Nat → RCState → List Event × Outcome RCState
  | 0, s =>
    if s.cnt.status < TerminateSuccess ∧ TerminateError < s.cnt.status then
      ([], Outcome.diverge)
    else ([], Outcome.ok s)
  | fuel + 1, s =>
    if s.cnt.status < TerminateSuccess ∧ TerminateError < s.cnt.status then
      andThen (rcTurn cap prob s) (rcLoop cap prob fuel)
    else ([], Outcome.ok s)

/-- Error text of the multi-objective precondition check (worhp.hpp 191-195). -/
def multiObjectiveMsg (name : String) : String :=
  "Multiple objectives detected in " ++ name ++ " instance. WORHP cannot deal with them"

/-- Error text of the stochastic precondition check (worhp.hpp 196-199). -/
def stochasticMsg : String :=
  "The problem appears to be stochastic WORHP cannot deal with it"

/-- Error text of the empty-population precondition check (worhp.hpp 201-203). -/
def emptyPopMsg : String :=
  "WORHP does not work on an empty population"

/-- Error text thrown inside the load block when the library path is not a
regular file (worhp.hpp 225-228). -/
def pathNotFileMsg (lib : String) : String :=
  "The worhp library path was constructed to be: " ++ lib
    ++ " and it does not appear to be a file"

/-- The diagnostic the catch block wraps around any load-time failure
(worhp.hpp 281-297); the original exception text is appended at the end. -/
def loadDiagnosticPrefix (lib : String) : String :=
  "\nAn error occurred while loading the worhp library at run-time. This is typically caused by one of the following\nreasons:\n\n- The file declared to be the worhp library, i.e. "
    ++ lib
    ++ ", is not found or is found but it is not a shared library containing the necessary symbols \n(is the file path really pointing to a valid shared library?)\n - The library is found and it does contain the symbols, but it needs linking to some additional libraries that are not found\nat run-time.\n\nWe report the exact text of the original exception thrown:\n\n "

/-- The wrapped load-failure message: diagnostic plus the original low-level
exception text, verbatim, at the end. -/
def loadErrorMsg (lib e : String) : String := loadDiagnosticPrefix lib ++ e

/-- The body of the try block of worhp.hpp 221-280: check that the path is a
regular file, then load the library and bind the ten symbols (the boost.dll
outcome is supplied by the environment). -/
def innerLoad (alg : WorhpAlg) (env : Env) : Except String Capability :=
  if env.isRegularFile then env.cap
  else Except.error (pathNotFileMsg alg.worhp_library)

/-- The whole load block including the catch clause (worhp.hpp 221-298): any
failure is re-thrown as a single invalid_argument wrapping the original text. -/
def loadCapability (alg : WorhpAlg) (env : Env) : Except String Capability :=
  match innerLoad alg env with
  | .error e => Except.error (loadErrorMsg alg.worhp_library e)
  | .ok c => Except.ok c

/-- The state just before WorhpInit (worhp.hpp 303-324): WorhpPreInit on the
fresh records, ReadParams into par, the problem dimensions into opt, and the
dense derivative declarations into wsp. -/
def preInitState (env : Env) (pop : Population) (cap : Capability) : RCState :=
  let prob := pop.prob
  let s0 := cap.WorhpPreInit env.raw
  let par1 := (cap.ReadParams "param.xml" s0.par).2
  { opt := { s0.opt with n := prob.nx, m := prob.nc },
    wsp := { s0.wsp with
      DF := { nnz := WorhpMatrix_Init_Dense },
      DG := { nnz := WorhpMatrix_Init_Dense },
      HM := { nnz := WorhpMatrix_Init_Dense } },
    par := par1,
    cnt := s0.cnt }

/-- Result of the setup phase: its trace, the records as the loop first sees
them, and the selected individual. -/
structure SetupOut where
  trace : List Event
  state : RCState
  x0 : V
  f0 : V

/-- The setup phase of evolve (worhp.hpp 303-367): pre-init, parameter file,
dimensions, WorhpInit, the five fixed parameter writes, individual selection,
initial point, box bounds, and the equality/inequality constraint bounds. -/
def setupPhase (env : Env) (pop : Population) (cap : Capability) : SetupOut :=
  let prob := pop.prob
  let s2 := cap.WorhpInit (preInitState env pop cap)
  let par2 := { s2.par with
    UserDF := false, UserDG := false, UserHM := false,
    UserHMstructure := false, InitialLMest := true }
  let s3 := { s2 with par := par2 }
  let xf := env.select_individual pop
  let x0 := xf.1
  let f0 := xf.2
  let opt1 := { s3.opt with
    X := writeRange s3.opt.X 0 s3.opt.n (fun i => x0.getD i 0),
    F := s3.wsp.ScaleObj * f0.getD 0 0,
    G := writeRange s3.opt.G 0 s3.opt.m (fun i => f0.getD (i + 1) 0) }
  let opt2 := { opt1 with
    XL := writeRange opt1.XL 0 opt1.n (fun i => prob.lb.getD i 0),
    XU := writeRange opt1.XU 0 opt1.n (fun i => prob.ub.getD i 0) }
  let opt3 := { opt2 with
    «GL» := writeRange (writeRange opt2.«GL» 0 prob.nec (fun _ => 0))
            prob.nec opt2.m (fun _ => -s3.par.Infty),
    GU := writeRange (writeRange opt2.GU 0 prob.nec (fun _ => 0))
            prob.nec opt2.m (fun _ => 0) }
  { trace := [Event.preInit, Event.readParams, Event.init,
      Event.parWrite .UserDF, Event.parWrite .UserDG, Event.parWrite .UserHM,
      Event.parWrite .UserHMstructure, Event.parWrite .InitialLMest],
    state := { s3 with opt := opt3 },
    x0 := x0, f0 := f0 }

/-- The final decision vector read back from the optimization record
(worhp.hpp 433-437): a zero vector of length dim overwritten with opt.X[i] for
i < opt.n. -/
def xFinal (prob : Problem) (sEnd : RCState) : V :=
  writeRange (List.replicate prob.nx (0 : ℚ)) 0 sEnd.opt.n
    (fun i => sEnd.opt.X.getD i 0)

/-- The tail of evolve after the loop exits normally (worhp.hpp 431-447): read
x_final back from opt.X, re-evaluate the raw host fitness there, replace the
individual iff compare_fc improves, then StatusMsg and WorhpFree. -/
def finishPhase (env : Env) (pop : Population) (cap : Capability) (f0 : V)
    (sEnd : RCState) : List Event × Outcome Population :=
  let prob := pop.prob
  let x_final := xFinal prob sEnd
  match prob.fitness x_final with
  | .error e => ([], Outcome.exn e)
  | .ok f_final =>
    let pop' := if env.compare_fc f_final f0 prob.nec prob.c_tol then
        env.replace_individual pop x_final f_final
      else pop
    let sMsg := cap.StatusMsg sEnd
    let _sFree := cap.WorhpFree sMsg
    ([Event.statusMsg, Event.free], Outcome.ok pop')

/-- worhp::evolve (worhp.hpp 180-448): precondition checks, library load,
setup, the reverse-communication loop, and the finish phase. -/
def evolve (alg : WorhpAlg) (env : Env) (pop : Population) :
    List Event × Outcome Population :=
  let prob := pop.prob
  if prob.nobj ≠ 1 then ([], Outcome.exn (multiObjectiveMsg prob.name))
  else if prob.stochastic then ([], Outcome.exn stochasticMsg)
  else if pop.size = 0 then ([], Outcome.exn emptyPopMsg)
  else
    match loadCapability alg env with
    | .error msg => ([Event.libLoad], Outcome.exn msg)
    | .ok cap =>
      let sp := setupPhase env pop cap
      let lr := rcLoop cap prob env.fuel sp.state
      match lr.2 with
      | Outcome.ok sEnd =>
        let fin := finishPhase env pop cap sp.f0 sEnd
        (Event.libLoad :: (sp.trace ++ lr.1 ++ fin.1), fin.2)
      | Outcome.exn e => (Event.libLoad :: (sp.trace ++ lr.1), Outcome.exn e)
      | Outcome.diverge => (Event.libLoad :: (sp.trace ++ lr.1), Outcome.diverge)

/-- Error text of worhp::set_verbosity (worhp.hpp 498-500). -/
def verbosityMsg : String :=
  "Cannot set verbosity to a >0 value if WORHP screen output is choosen upon construction."

/-- worhp::set_verbosity (worhp.hpp 496-504): returns the object state after
the call together with the thrown error, if any (a throw leaves the object
unchanged). -/
def set_verbosity (a : WorhpAlg) (n : Nat) : WorhpAlg × Option String :=
  if a.screen_output ∧ n ≠ 0 then (a, some verbosityMsg)
  else ({ a with verbosity := n }, none)

/-- worhp::get_verbosity (worhp.hpp 520-523). -/
def get_verbosity (a : WorhpAlg) : Nat := a.verbosity

/-- A scripted stand-in for the external solver, used to evaluate the theorems
on concrete runs: request flags live in cnt.pending, and the solver step
reports success immediately. -/
def mockCap : Capability where
  WorhpPreInit := id
  WorhpInit := id
  ReadParams := fun _ p => (0, p)
  GetUserAction := fun c a => decide (a ∈ c.pending)
  DoneUserAction := fun c a =>
    (true, { c with pending := c.pending.filter (fun x => decide (x ≠ a)) })
  IterationOutput := id
  Worhp := fun s => { s with cnt := { s.cnt with status := TerminateSuccess } }
  StatusMsg := id
  WorhpFree := id
  WorhpFidif := id

/-- Raw record contents before WorhpPreInit, with arrays sized for a problem
with one variable and two constraints. -/
def mockRaw : RCState where
  opt := { n := 0, m := 0, X := [0], F := 0, G := [0, 0], XL := [0], XU := [0],
           «GL» := [0, 0], GU := [0, 0] }
  wsp := { ScaleObj := 1, DF := { nnz := 0 }, DG := { nnz := 0 }, HM := { nnz := 0 } }
  par := { UserDF := true, UserDG := true, UserHM := true, UserHMstructure := true,
           InitialLMest := false, Infty := 1000000, TolFeas := 1 }
  cnt := { status := 0, pending := [UserAction.callWorhp] }

/-- A concrete single-objective problem with one equality and one inequality
constraint. -/
def mockProb : Problem where
  nx := 1
  nobj := 1
  nec := 1
  nic := 1
  lb := [0]
  ub := [1]
  fitness := fun x => Except.ok [x.getD 0 0, 0, 0]
  c_tol := [0, 0]
  stochastic := false
  name := "mock"

/-- A one-individual population on the concrete problem. -/
def mockPop : Population := { prob := mockProb, xs := [([0], [0, 0, 0])] }

/-- A concrete algorithm object. -/
def mockAlg : WorhpAlg :=
  { worhp_library := "/usr/local/lib/libworhp.so", screen_output := false, verbosity := 0 }

/-- A concrete environment: load succeeds, selection takes individual 0,
replacement overwrites individual 0, improvement compares objectives. -/
def mockEnv : Env where
  cap := Except.ok mockCap
  isRegularFile := true
  raw := mockRaw
  fuel := 4
  select_individual := fun p => p.xs.getD 0 ([], [])
  replace_individual := fun p x f => { p with xs := [(x, f)] }
  compare_fc := fun f1 f2 _ _ => decide (f1.getD 0 0 < f2.getD 0 0)

/-- The concrete problem with a throwing fitness evaluator. -/
def mockProbBoom : Problem := { mockProb with fitness := fun _ => Except.error "boom" }

/-- A population whose fitness evaluator throws. -/
def mockPopBoom : Population := { prob := mockProbBoom, xs := [([0], [0, 0, 0])] }

/-- A record state with no pending request flags and an in-progress status. -/
def mockTurnState : RCState := { mockRaw with cnt := { status := 0, pending := [] } }

/-- A two-objective population (violates the precondition). -/
def mockPopMO : Population :=
  { prob := { mockProb with nobj := 2 }, xs := [([0], [0, 0, 0, 0])] }

/-- An algorithm object constructed with native WORHP screen output. -/
def mockAlgScreen : WorhpAlg :=
  { worhp_library := "/usr/local/lib/libworhp.so", screen_output := true, verbosity := 7 }

/-- The record state in which the mock run's reverse-communication loop
terminates (the solver step has set the success status). -/
def wSEnd : RCState :=
  { opt := { n := 1, m := 2, X := [0], F := (1 : ℚ) * 0, G := [0, 0], XL := [0], XU := [1],
             «GL» := [0, -1000000], GU := [0, 0] },
    wsp := { ScaleObj := 1, DF := { nnz := -1 }, DG := { nnz := -1 }, HM := { nnz := -1 } },
    par := { UserDF := false, UserDG := false, UserHM := false, UserHMstructure := false,
             InitialLMest := true, Infty := 1000000, TolFeas := 1 },
    cnt := { status := 1, pending := [UserAction.callWorhp] } }

/-- The loop trace of the mock run: one turn, solver step only, then exit. -/
def wTL : List Event :=
  [Event.poll .callWorhp true, Event.callWorhp, Event.poll .iterOutput false,
   Event.poll .evalF false, Event.poll .evalG false, Event.poll .fidif false]

/-- The mock run's record state right after WorhpInit. -/
def wS2 : RCState :=
  { opt := { n := 1, m := 2, X := [0], F := 0, G := [0, 0], XL := [0], XU := [0],
             «GL» := [0, 0], GU := [0, 0] },
    wsp := { ScaleObj := 1, DF := { nnz := -1 }, DG := { nnz := -1 }, HM := { nnz := -1 } },
    par := { UserDF := true, UserDG := true, UserHM := true, UserHMstructure := true,
             InitialLMest := false, Infty := 1000000, TolFeas := 1 },
    cnt := { status := 0, pending := [UserAction.callWorhp] } }

/-- The concrete environment with a library path that is not a regular file. -/
def mockEnvNoFile : Env := { mockEnv with isRegularFile := false }

/-- Which events may occur inside a reverse-communication turn. -/
def isTurnEvent : Event → Bool
  | .poll _ _ => true
  | .callWorhp => true
  | .iterOutput => true
  | .evalF => true
  | .evalG => true
  | .fidif => true
  | .ack _ => true
  | _ => false

/- ------------------------------------------------------------------------ -/
/- Helper lemmas about traces and the C-style write loops.                  -/

theorem countE_append (e : Event) (t1 t2 : List Event) :
    countE e (t1 ++ t2) = countE e t1 + countE e t2 := by
  simp [countE, List.filter_append]

theorem countE_cons (e x : Event) (t : List Event) :
    countE e (x :: t) = (if x = e then 1 else 0) + countE e t := by
  by_cases h : x = e <;> simp [countE, List.filter_cons, h, Nat.add_comm]

theorem countE_eq_zero (e : Event) (t : List Event) (h : ∀ x ∈ t, x ≠ e) :
    countE e t = 0 := by
  have : t.filter (fun x => decide (x = e)) = [] := by
    rw [List.filter_eq_nil_iff]
    intro a ha
    simpa using h a ha
  simp [countE, this]

theorem polls_append (t1 t2 : List Event) :
    polls (t1 ++ t2) = polls t1 ++ polls t2 := by
  simp [polls]

theorem foldl_set_length (f : Nat → ℚ) (l : List Nat) : ∀ arr : V,
    (l.foldl (fun a i => a.set i (f i)) arr).length = arr.length := by
  induction l with
  | nil => intro arr; rfl
  | cons i l ih => intro arr; rw [List.foldl_cons, ih, List.length_set]

theorem writeRange_length (arr : V) (lo hi : Nat) (f : Nat → ℚ) :
    (writeRange arr lo hi f).length = arr.length :=
  foldl_set_length f _ arr

theorem foldl_set_getD (f : Nat → ℚ) : ∀ (n lo : Nat) (arr : V) (j : Nat) (d : ℚ),
    ((List.range' lo n).foldl (fun a i => a.set i (f i)) arr).getD j d
      = if lo ≤ j ∧ j < lo + n ∧ j < arr.length then f j else arr.getD j d := by
  intro n
  induction n with
  | zero =>
    intro lo arr j d
    rw [List.range'_zero, List.foldl_nil, if_neg (by omega)]
  | succ n ih =>
    intro lo arr j d
    rw [List.range'_succ, List.foldl_cons, ih, List.length_set]
    by_cases h1 : lo + 1 ≤ j ∧ j < lo + 1 + n ∧ j < arr.length
    · rw [if_pos h1, if_pos (by omega)]
    · rw [if_neg h1]
      by_cases h2 : j = lo
      · subst h2
        by_cases h3 : j < arr.length
        · rw [if_pos (by omega)]
          simp [List.getD_eq_getElem?_getD, List.getElem?_set_self', List.getElem?_eq_getElem, h3]
        · rw [if_neg (by omega)]
          rw [List.getD_eq_default _ _ (show (arr.set j (f j)).length ≤ j by
            rw [List.length_set]; omega)]
          rw [List.getD_eq_default _ _ (show arr.length ≤ j by omega)]
      · rw [show ((arr.set lo (f lo)).getD j d) = arr.getD j d from by
            simp [List.getD_eq_getElem?_getD, List.getElem?_set_ne (by omega : lo ≠ j)]]
        by_cases h4 : lo ≤ j ∧ j < lo + (n + 1) ∧ j < arr.length
        · exact absurd h4 (by omega)
        · rw [if_neg h4]

theorem writeRange_getD (arr : V) (lo hi : Nat) (f : Nat → ℚ) (j : Nat) (d : ℚ) :
    (writeRange arr lo hi f).getD j d
      = if lo ≤ j ∧ j < hi ∧ j < arr.length then f j else arr.getD j d := by
  unfold writeRange
  rw [foldl_set_getD]
  by_cases h : lo ≤ j ∧ j < hi ∧ j < arr.length
  · rw [if_pos (by omega), if_pos h]
  · rw [if_neg (by omega), if_neg h]

theorem writeRange_full (arr src : V) (k : Nat) (f : Nat → ℚ)
    (ha : arr.length = k) (hs : src.length = k)
    (hf : ∀ i, i < k → f i = src.getD i 0) :
    writeRange arr 0 k f = src := by
  apply List.ext_getElem (by rw [writeRange_length, ha, hs])
  intro i h1 h2
  have h1' : i < k := by rwa [writeRange_length, ha] at h1
  have hW := writeRange_getD arr 0 k f i 0
  rw [if_pos ⟨Nat.zero_le _, h1', by omega⟩, hf i h1'] at hW
  have hL : (writeRange arr 0 k f)[i]? = some ((writeRange arr 0 k f)[i]) :=
    List.getElem?_eq_getElem h1
  have hR : src[i]? = some (src[i]) := List.getElem?_eq_getElem h2
  rw [List.getD_eq_getElem?_getD, List.getD_eq_getElem?_getD, hL, hR] at hW
  simpa using hW

theorem andThen_ok (r : List Event × Outcome RCState)
    (k : RCState → List Event × Outcome RCState) (s' : RCState)
    (h : (andThen r k).2 = Outcome.ok s') :
    ∃ s1, r.2 = Outcome.ok s1 ∧ (k s1).2 = Outcome.ok s'
      ∧ (andThen r k).1 = r.1 ++ (k s1).1 := by
  obtain ⟨t, o⟩ := r
  cases o with
  | ok s => exact ⟨s, rfl, by simpa [andThen] using h, by simp [andThen]⟩
  | exn e => simp [andThen] at h
  | diverge => simp [andThen] at h

theorem andThen_events (r : List Event × Outcome RCState)
    (k : RCState → List Event × Outcome RCState) (P : Event → Bool)
    (h1 : ∀ e ∈ r.1, P e = true) (h2 : ∀ s1, ∀ e ∈ (k s1).1, P e = true) :
    ∀ e ∈ (andThen r k).1, P e = true := by
  obtain ⟨t, o⟩ := r
  cases o with
  | ok s =>
    intro e he
    simp only [andThen, List.mem_append] at he
    rcases he with he | he
    · exact h1 e he
    · exact h2 s e he
  | exn e => exact h1
  | diverge => exact h1

theorem stepCallWorhp_shape (cap : Capability) (s : RCState) :
    ∃ b, stepCallWorhp cap s
      = (Event.poll .callWorhp b :: (if b then [Event.callWorhp] else []),
         Outcome.ok (if b then cap.Worhp s else s)) := by
  by_cases h : cap.GetUserAction s.cnt .callWorhp
  · exact ⟨true, by simp [stepCallWorhp, h]⟩
  · exact ⟨false, by simp [stepCallWorhp, h]⟩

theorem stepIterOutput_shape (cap : Capability) (s : RCState) :
    ∃ b s1, stepIterOutput cap s
      = (Event.poll .iterOutput b :: (if b then [Event.iterOutput, Event.ack .iterOutput] else []),
         Outcome.ok s1) := by
  by_cases h : cap.GetUserAction s.cnt .iterOutput
  · refine ⟨true, { cap.IterationOutput s with
      cnt := (cap.DoneUserAction (cap.IterationOutput s).cnt .iterOutput).2 }, ?_⟩
    simp [stepIterOutput, h]
  · exact ⟨false, s, by simp [stepIterOutput, h]⟩

theorem stepEvalF_ok_shape (cap : Capability) (prob : Problem) (s s' : RCState)
    (h : (stepEvalF cap prob s).2 = Outcome.ok s') :
    ∃ b, (stepEvalF cap prob s).1
      = Event.poll .evalF b :: (if b then [Event.evalF, Event.ack .evalF] else []) := by
  unfold stepEvalF at h ⊢
  by_cases hb : cap.GetUserAction s.cnt .evalF
  · rw [if_pos hb] at h ⊢
    cases hUF : UserF prob s with
    | error e => rw [hUF] at h; simp at h
    | ok sa => exact ⟨true, by simp⟩
  · rw [if_neg hb]; exact ⟨false, by simp⟩

theorem stepEvalG_ok_shape (cap : Capability) (prob : Problem) (s s' : RCState)
    (h : (stepEvalG cap prob s).2 = Outcome.ok s') :
    ∃ b, (stepEvalG cap prob s).1
      = Event.poll .evalG b :: (if b then [Event.evalG, Event.ack .evalG] else []) := by
  unfold stepEvalG at h ⊢
  by_cases hb : cap.GetUserAction s.cnt .evalG
  · rw [if_pos hb] at h ⊢
    cases hUG : UserG prob s with
    | error e => rw [hUG] at h; simp at h
    | ok sa => exact ⟨true, by simp⟩
  · rw [if_neg hb]; exact ⟨false, by simp⟩

theorem stepFidif_shape (cap : Capability) (s : RCState) :
    ∃ b, stepFidif cap s
      = (Event.poll .fidif b :: (if b then [Event.fidif] else []),
         Outcome.ok (if b then cap.WorhpFidif s else s)) := by
  by_cases h : cap.GetUserAction s.cnt .fidif
  · exact ⟨true, by simp [stepFidif, h]⟩
  · exact ⟨false, by simp [stepFidif, h]⟩

theorem rcTurn_ok_trace (cap : Capability) (prob : Problem) (s s' : RCState)
    (h : (rcTurn cap prob s).2 = Outcome.ok s') :
    ∃ b1 b2 b3 b4 b5, (rcTurn cap prob s).1 =
      (Event.poll .callWorhp b1 :: (if b1 then [Event.callWorhp] else []))
      ++ ((Event.poll .iterOutput b2 :: (if b2 then [Event.iterOutput, Event.ack .iterOutput] else []))
      ++ ((Event.poll .evalF b3 :: (if b3 then [Event.evalF, Event.ack .evalF] else []))
      ++ ((Event.poll .evalG b4 :: (if b4 then [Event.evalG, Event.ack .evalG] else []))
      ++ (Event.poll .fidif b5 :: (if b5 then [Event.fidif] else []))))) := by
  unfold rcTurn at h ⊢
  obtain ⟨s1, h1, hrest1, htr1⟩ := andThen_ok _ _ _ h
  obtain ⟨s2, h2, hrest2, htr2⟩ := andThen_ok _ _ _ hrest1
  obtain ⟨s3, h3, hrest3, htr3⟩ := andThen_ok _ _ _ hrest2
  obtain ⟨s4, h4, hrest4, htr4⟩ := andThen_ok _ _ _ hrest3
  obtain ⟨b1, hs1⟩ := stepCallWorhp_shape cap s
  obtain ⟨b2, s1', hs2⟩ := stepIterOutput_shape cap s1
  obtain ⟨b3, hs3⟩ := stepEvalF_ok_shape cap prob s2 s3 h3
  obtain ⟨b4, hs4⟩ := stepEvalG_ok_shape cap prob s3 s4 h4
  obtain ⟨b5, hs5⟩ := stepFidif_shape cap s4
  refine ⟨b1, b2, b3, b4, b5, ?_⟩
  rw [htr1, htr2, htr3, htr4, hs1, hs2, hs3, hs4, hs5]

theorem stepCallWorhp_events (cap : Capability) (s : RCState) :
    ∀ e ∈ (stepCallWorhp cap s).1, isTurnEvent e = true := by
  unfold stepCallWorhp
  split <;> intro e he <;> fin_cases he <;> rfl

theorem stepIterOutput_events (cap : Capability) (s : RCState) :
    ∀ e ∈ (stepIterOutput cap s).1, isTurnEvent e = true := by
  unfold stepIterOutput
  split <;> intro e he <;> fin_cases he <;> rfl

theorem stepEvalF_events (cap : Capability) (prob : Problem) (s : RCState) :
    ∀ e ∈ (stepEvalF cap prob s).1, isTurnEvent e = true := by
  unfold stepEvalF
  split
  · cases UserF prob s <;> intro e he <;> fin_cases he <;> rfl
  · intro e he; fin_cases he; rfl

theorem stepEvalG_events (cap : Capability) (prob : Problem) (s : RCState) :
    ∀ e ∈ (stepEvalG cap prob s).1, isTurnEvent e = true := by
  unfold stepEvalG
  split
  · cases UserG prob s <;> intro e he <;> fin_cases he <;> rfl
  · intro e he; fin_cases he; rfl

theorem stepFidif_events (cap : Capability) (s : RCState) :
    ∀ e ∈ (stepFidif cap s).1, isTurnEvent e = true := by
  unfold stepFidif
  split <;> intro e he <;> fin_cases he <;> rfl

theorem rcTurn_events (cap : Capability) (prob : Problem) (s : RCState) :
    ∀ e ∈ (rcTurn cap prob s).1, isTurnEvent e = true := by
  unfold rcTurn
  refine andThen_events _ _ _ (stepCallWorhp_events cap s) (fun s1 => ?_)
  refine andThen_events _ _ _ (stepIterOutput_events cap s1) (fun s2 => ?_)
  refine andThen_events _ _ _ (stepEvalF_events cap prob s2) (fun s3 => ?_)
  refine andThen_events _ _ _ (stepEvalG_events cap prob s3) (fun s4 => ?_)
  exact stepFidif_events cap s4

theorem rcLoop_events (cap : Capability) (prob : Problem) :
    ∀ (fuel : Nat) (s : RCState), ∀ e ∈ (rcLoop cap prob fuel s).1, isTurnEvent e = true := by
  intro fuel
  induction fuel with
  | zero =>
    intro s e he
    unfold rcLoop at he
    split at he <;> simp at he
  | succ n ih =>
    intro s e he
    unfold rcLoop at he
    split at he
    · exact andThen_events _ _ _ (rcTurn_events cap prob s) (fun s1 => ih s1) e he
    · simp at he

theorem countE_zero_of_turn_events (e : Event) (he : isTurnEvent e = false)
    (t : List Event) (h : ∀ x ∈ t, isTurnEvent x = true) : countE e t = 0 := by
  refine countE_eq_zero _ _ (fun x hx hxe => ?_)
  have hx' := h x hx
  rw [hxe] at hx'
  rw [hx'] at he
  exact Bool.noConfusion he

/- ------------------------------------------------------------------------ -/
/- Claim theorems.                                                          -/

/-- C1: in every turn of the reverse-communication loop the driver checks all
five request flags in the fixed priority order (solver-step, iteration-output,
objective-evaluation, constraint-evaluation, finite-difference-step) whether or
not they fired; it performs the associated action exactly for the flags whose
poll fired; it acknowledges iteration-output, objective-evaluation and
constraint-evaluation exactly once per request and never acknowledges
solver-step or finite-difference-step; and the loop re-reads the status before
every turn and runs a turn exactly when the status lies in the open interval
between the error and success terminal sentinels. -/
theorem rc_driver_turn_protocol (cap : Capability) (prob : Problem)
    (fuel : Nat) (s s' : RCState) (h : (rcTurn cap prob s).2 = Outcome.ok s') :
    polls (rcTurn cap prob s).1 = pollOrder
    ∧ (∀ a : UserAction, countE (actionEvent a) (rcTurn cap prob s).1
        = if Event.poll a true ∈ (rcTurn cap prob s).1 then 1 else 0)
    ∧ (∀ a : UserAction, countE (Event.ack a) (rcTurn cap prob s).1
        = if (a = .iterOutput ∨ a = .evalF ∨ a = .evalG)
              ∧ Event.poll a true ∈ (rcTurn cap prob s).1 then 1 else 0)
    ∧ (∀ t : RCState, ¬(t.cnt.status < TerminateSuccess ∧ TerminateError < t.cnt.status)
        → rcLoop cap prob fuel t = ([], Outcome.ok t))
    ∧ (∀ t : RCState, (t.cnt.status < TerminateSuccess ∧ TerminateError < t.cnt.status)
        → rcLoop cap prob (fuel + 1) t = andThen (rcTurn cap prob t) (rcLoop cap prob fuel)) := by
  obtain ⟨b1, b2, b3, b4, b5, htr⟩ := rcTurn_ok_trace cap prob s s' h
  refine ⟨?_, ?_, ?_, ?_, ?_⟩
  · rw [htr]; cases b1 <;> cases b2 <;> cases b3 <;> cases b4 <;> cases b5 <;> decide
  · intro a
    rw [htr]
    cases a <;> cases b1 <;> cases b2 <;> cases b3 <;> cases b4 <;> cases b5 <;> decide
  · intro a
    rw [htr]
    cases a <;> cases b1 <;> cases b2 <;> cases b3 <;> cases b4 <;> cases b5 <;> decide
  · intro t ht
    cases fuel <;> (unfold rcLoop; rw [if_neg ht])
  · intro t ht
    unfold rcLoop
    rw [if_pos ht]

/-- C1 witness: the protocol theorem evaluated on a concrete turn of the mock
solver with no pending flags. -/
theorem rc_driver_turn_protocol_witness :
    (rcTurn mockCap mockProb mockTurnState).2 = Outcome.ok mockTurnState
    ∧ polls (rcTurn mockCap mockProb mockTurnState).1 = pollOrder :=
  ⟨by decide,
   (rc_driver_turn_protocol mockCap mockProb 0 mockTurnState mockTurnState (by decide)).1⟩

/-- C3: assuming WorhpInit allocates the bound arrays at the declared sizes
and keeps the declared dimensions, the state entering the loop has box bounds
copied verbatim from lb/ub, constraint bounds [0, 0] on the equality indices
[0, nec) and [-Infty, 0] on the inequality indices [nec, nc), where Infty is
the sentinel read from the parameter record. -/
theorem setup_constraint_partition (env : Env) (pop : Population) (cap : Capability)
    (s2 : RCState) (hs2 : s2 = cap.WorhpInit (preInitState env pop cap))
    (hn : s2.opt.n = pop.prob.nx) (hm : s2.opt.m = pop.prob.nc)
    (hXL : s2.opt.XL.length = pop.prob.nx) (hXU : s2.opt.XU.length = pop.prob.nx)
    (hGL : s2.opt.«GL».length = pop.prob.nc) (hGU : s2.opt.GU.length = pop.prob.nc)
    (hlb : pop.prob.lb.length = pop.prob.nx) (hub : pop.prob.ub.length = pop.prob.nx)
    (hneq : pop.prob.nec ≤ pop.prob.nc) :
    (setupPhase env pop cap).state.opt.XL = pop.prob.lb
    ∧ (setupPhase env pop cap).state.opt.XU = pop.prob.ub
    ∧ (∀ i, i < pop.prob.nec →
        (setupPhase env pop cap).state.opt.«GL».getD i 0 = 0
        ∧ (setupPhase env pop cap).state.opt.GU.getD i 0 = 0)
    ∧ (∀ i, pop.prob.nec ≤ i → i < pop.prob.nc →
        (setupPhase env pop cap).state.opt.«GL».getD i 0 = -(s2.par.Infty)
        ∧ (setupPhase env pop cap).state.opt.GU.getD i 0 = 0) := by
  subst hs2
  have eXL : (setupPhase env pop cap).state.opt.XL
      = writeRange (cap.WorhpInit (preInitState env pop cap)).opt.XL 0
          (cap.WorhpInit (preInitState env pop cap)).opt.n
          (fun i => pop.prob.lb.getD i 0) := rfl
  have eXU : (setupPhase env pop cap).state.opt.XU
      = writeRange (cap.WorhpInit (preInitState env pop cap)).opt.XU 0
          (cap.WorhpInit (preInitState env pop cap)).opt.n
          (fun i => pop.prob.ub.getD i 0) := rfl
  have eGL : (setupPhase env pop cap).state.opt.«GL»
      = writeRange (writeRange (cap.WorhpInit (preInitState env pop cap)).opt.«GL» 0
          pop.prob.nec (fun _ => 0)) pop.prob.nec
          (cap.WorhpInit (preInitState env pop cap)).opt.m
          (fun _ => -((cap.WorhpInit (preInitState env pop cap)).par.Infty)) := rfl
  have eGU : (setupPhase env pop cap).state.opt.GU
      = writeRange (writeRange (cap.WorhpInit (preInitState env pop cap)).opt.GU 0
          pop.prob.nec (fun _ => 0)) pop.prob.nec
          (cap.WorhpInit (preInitState env pop cap)).opt.m
          (fun _ => 0) := rfl
  refine ⟨?_, ?_, ?_, ?_⟩
  · rw [eXL, hn]
    exact writeRange_full _ _ _ _ hXL hlb (fun i _ => rfl)
  · rw [eXU, hn]
    exact writeRange_full _ _ _ _ hXU hub (fun i _ => rfl)
  · intro i hi
    have hiL : i < (cap.WorhpInit (preInitState env pop cap)).opt.«GL».length := by omega
    have hiU : i < (cap.WorhpInit (preInitState env pop cap)).opt.GU.length := by omega
    constructor
    · rw [eGL, writeRange_getD, if_neg (by omega), writeRange_getD,
        if_pos ⟨Nat.zero_le _, hi, hiL⟩]
    · rw [eGU, writeRange_getD, if_neg (by omega), writeRange_getD,
        if_pos ⟨Nat.zero_le _, hi, hiU⟩]
  · intro i h1 h2
    have hm' : i < (cap.WorhpInit (preInitState env pop cap)).opt.m := by omega
    constructor
    · have hl1 : i < (writeRange (cap.WorhpInit (preInitState env pop cap)).opt.«GL» 0
          pop.prob.nec (fun _ => 0)).length := by
        rw [writeRange_length]; omega
      rw [eGL, writeRange_getD, if_pos ⟨h1, hm', hl1⟩]
    · have hl2 : i < (writeRange (cap.WorhpInit (preInitState env pop cap)).opt.GU 0
          pop.prob.nec (fun _ => 0)).length := by
        rw [writeRange_length]; omega
      rw [eGU, writeRange_getD, if_pos ⟨h1, hm', hl2⟩]

/-- C3 witness: the constraint-partition theorem evaluated on the mock setup
(one variable, one equality and one inequality constraint). -/
theorem setup_constraint_partition_witness :
    wS2 = mockCap.WorhpInit (preInitState mockEnv mockPop mockCap)
    ∧ (setupPhase mockEnv mockPop mockCap).state.opt.XL = mockPop.prob.lb :=
  ⟨by decide,
   (setup_constraint_partition mockEnv mockPop mockCap wS2 (by decide) (by decide)
      (by decide) (by decide) (by decide) (by decide) (by decide) (by decide)
      (by decide) (by decide)).1⟩

/-- C7: UserF, for any record state whose fitness evaluation succeeds, writes
ScaleObj * fitness[0] into opt.F and leaves every other field of the four
records unchanged. -/
theorem UserF_frame (prob : Problem) (s : RCState) (f : V)
    (h : prob.fitness (s.opt.X.take prob.nx) = Except.ok f) :
    ∃ s', UserF prob s = Except.ok s'
      ∧ s'.opt.F = s.wsp.ScaleObj * f.getD 0 0
      ∧ s'.opt.X = s.opt.X ∧ s'.opt.G = s.opt.G
      ∧ s'.opt.n = s.opt.n ∧ s'.opt.m = s.opt.m
      ∧ s'.opt.XL = s.opt.XL ∧ s'.opt.XU = s.opt.XU
      ∧ s'.opt.«GL» = s.opt.«GL» ∧ s'.opt.GU = s.opt.GU
      ∧ s'.wsp = s.wsp ∧ s'.par = s.par ∧ s'.cnt = s.cnt := by
  refine ⟨{ s with opt := { s.opt with F := s.wsp.ScaleObj * f.getD 0 0 } }, ?_,
    rfl, rfl, rfl, rfl, rfl, rfl, rfl, rfl, rfl, rfl, rfl, rfl⟩
  unfold UserF
  dsimp only
  rw [h]
  rfl

/-- C7 witness: the frame theorem evaluated at the mock problem and the mock
post-init record state. -/
theorem UserF_frame_witness :
    mockProb.fitness (wS2.opt.X.take mockProb.nx) = Except.ok [0, 0, 0]
    ∧ ∃ s', UserF mockProb wS2 = Except.ok s'
      ∧ s'.opt.F = wS2.wsp.ScaleObj * List.getD [0, 0, 0] 0 0
      ∧ s'.opt.X = wS2.opt.X ∧ s'.opt.G = wS2.opt.G
      ∧ s'.opt.n = wS2.opt.n ∧ s'.opt.m = wS2.opt.m
      ∧ s'.opt.XL = wS2.opt.XL ∧ s'.opt.XU = wS2.opt.XU
      ∧ s'.opt.«GL» = wS2.opt.«GL» ∧ s'.opt.GU = wS2.opt.GU
      ∧ s'.wsp = wS2.wsp ∧ s'.par = wS2.par ∧ s'.cnt = wS2.cnt :=
  ⟨rfl, UserF_frame mockProb wS2 [0, 0, 0] rfl⟩

/-- C10: set_verbosity 0 always succeeds and stores verbosity zero, even with
native screen output selected; and whenever set_verbosity throws, the stored
verbosity is unchanged, so get_verbosity afterwards returns the old value. -/
theorem set_verbosity_behavior (a : WorhpAlg) :
    set_verbosity a 0 = ({ a with verbosity := 0 }, none)
    ∧ ∀ n e, (set_verbosity a n).2 = some e
        → get_verbosity (set_verbosity a n).1 = get_verbosity a := by
  constructor
  · unfold set_verbosity
    rw [if_neg (by simp)]
  · intro n e h
    unfold set_verbosity at h ⊢
    by_cases hc : a.screen_output ∧ n ≠ 0
    · rw [if_pos hc]
    · rw [if_neg hc] at h
      simp at h

/-- C10 witness: a failing set_verbosity call on a screen-output object leaves
the stored verbosity at its old value 7. -/
theorem set_verbosity_behavior_witness :
    (set_verbosity mockAlgScreen 1).2 = some verbosityMsg
    ∧ get_verbosity (set_verbosity mockAlgScreen 1).1 = get_verbosity mockAlgScreen :=
  ⟨by decide, (set_verbosity_behavior mockAlgScreen).2 1 verbosityMsg (by decide)⟩

/-- C5: a multi-objective problem, a stochastic problem or an empty population
makes evolve throw before any solver interaction: the event trace is empty (no
library load, no record creation, no capability call) and the outcome is an
exception. -/
theorem evolve_precondition_fail_fast (alg : WorhpAlg) (env : Env) (pop : Population)
    (h : pop.prob.nobj ≠ 1 ∨ pop.prob.stochastic = true ∨ pop.size = 0) :
    (evolve alg env pop).1 = [] ∧ ∃ e, (evolve alg env pop).2 = Outcome.exn e := by
  unfold evolve
  dsimp only
  by_cases h1 : pop.prob.nobj ≠ 1
  · rw [if_pos h1]
    exact ⟨rfl, _, rfl⟩
  rw [if_neg h1]
  by_cases h2 : pop.prob.stochastic = true
  · rw [if_pos h2]
    exact ⟨rfl, _, rfl⟩
  rw [if_neg h2]
  have h3 : pop.size = 0 := by
    rcases h with ha | hb | hc
    · exact absurd ha h1
    · exact absurd hb h2
    · exact hc
  rw [if_pos h3]
  exact ⟨rfl, _, rfl⟩

/-- C5 witness: a two-objective population fails fast with an empty trace. -/
theorem evolve_precondition_fail_fast_witness :
    (evolve mockAlg mockEnv mockPopMO).1 = []
    ∧ ∃ e, (evolve mockAlg mockEnv mockPopMO).2 = Outcome.exn e :=
  evolve_precondition_fail_fast mockAlg mockEnv mockPopMO (Or.inl (by decide))

/-- C6: when the inner load step fails (path not a regular file, library not
loadable, or a symbol missing), evolve throws a single wrapped diagnostic that
ends with the original low-level exception text verbatim, and the trace shows
only the load attempt: none of the four records was created or initialised. -/
theorem evolve_load_failure_diagnostic (alg : WorhpAlg) (env : Env) (pop : Population)
    (e : String) (h1 : pop.prob.nobj = 1) (h2 : pop.prob.stochastic = false)
    (h3 : ¬pop.size = 0) (h : innerLoad alg env = Except.error e) :
    evolve alg env pop = ([Event.libLoad], Outcome.exn (loadErrorMsg alg.worhp_library e))
    ∧ ∃ p, loadErrorMsg alg.worhp_library e = p ++ e := by
  constructor
  · unfold evolve
    dsimp only
    rw [if_neg (by simp [h1]), if_neg (by simp [h2]), if_neg h3]
    have hlc : loadCapability alg env = Except.error (loadErrorMsg alg.worhp_library e) := by
      unfold loadCapability
      rw [h]
    rw [hlc]
  · exact ⟨loadDiagnosticPrefix alg.worhp_library, rfl⟩

/-- C6 witness: pointing the library path at something that is not a regular
file produces the wrapped diagnostic and nothing but the load attempt. -/
theorem evolve_load_failure_diagnostic_witness :
    innerLoad mockAlg mockEnvNoFile
        = Except.error (pathNotFileMsg mockAlg.worhp_library)
    ∧ evolve mockAlg mockEnvNoFile mockPop
        = ([Event.libLoad],
           Outcome.exn (loadErrorMsg mockAlg.worhp_library
             (pathNotFileMsg mockAlg.worhp_library))) :=
  ⟨rfl, (evolve_load_failure_diagnostic mockAlg mockEnvNoFile mockPop
      (pathNotFileMsg mockAlg.worhp_library) rfl rfl (by decide) rfl).1⟩

theorem setupPhase_trace (env : Env) (pop : Population) (cap : Capability) :
    (setupPhase env pop cap).trace
      = [Event.preInit, Event.readParams, Event.init,
         Event.parWrite .UserDF, Event.parWrite .UserDG, Event.parWrite .UserHM,
         Event.parWrite .UserHMstructure, Event.parWrite .InitialLMest] := rfl

theorem finishPhase_fit_ok (env : Env) (pop : Population) (cap : Capability)
    (f0 : V) (sEnd : RCState) (f_final : V)
    (h : pop.prob.fitness (xFinal pop.prob sEnd) = Except.ok f_final) :
    finishPhase env pop cap f0 sEnd
      = ([Event.statusMsg, Event.free],
         Outcome.ok (if env.compare_fc f_final f0 pop.prob.nec pop.prob.c_tol
           then env.replace_individual pop (xFinal pop.prob sEnd) f_final
           else pop)) := by
  unfold finishPhase
  dsimp only
  rw [h]

theorem finishPhase_fit_error (env : Env) (pop : Population) (cap : Capability)
    (f0 : V) (sEnd : RCState) (e : String)
    (h : pop.prob.fitness (xFinal pop.prob sEnd) = Except.error e) :
    finishPhase env pop cap f0 sEnd = ([], Outcome.exn e) := by
  unfold finishPhase
  dsimp only
  rw [h]

/-- C2: whenever the reverse-communication loop terminates normally and the
final fitness re-evaluation succeeds, evolve re-evaluates the raw host fitness
(no objective scaling) at the decision vector read back from the optimization
record, compares it against the originally selected fitness with compare_fc
using the equality-constraint count and the constraint tolerances, and returns
the population with the individual replaced exactly when compare_fc reports an
improvement; otherwise the population is returned unchanged. -/
theorem evolve_final_replacement (alg : WorhpAlg) (env : Env) (pop : Population)
    (cap : Capability) (tL : List Event) (sEnd : RCState) (f_final : V)
    (h1 : pop.prob.nobj = 1) (h2 : pop.prob.stochastic = false) (h3 : ¬pop.size = 0)
    (hcap : loadCapability alg env = Except.ok cap)
    (hloop : rcLoop cap pop.prob env.fuel (setupPhase env pop cap).state
        = (tL, Outcome.ok sEnd))
    (hfit : pop.prob.fitness (xFinal pop.prob sEnd) = Except.ok f_final) :
    (evolve alg env pop).2
      = Outcome.ok (if env.compare_fc f_final (env.select_individual pop).2
            pop.prob.nec pop.prob.c_tol
          then env.replace_individual pop (xFinal pop.prob sEnd) f_final
          else pop) := by
  unfold evolve
  dsimp only
  rw [if_neg (by simp [h1]), if_neg (by simp [h2]), if_neg h3, hcap]
  dsimp only
  rw [hloop]
  dsimp only
  rw [finishPhase_fit_ok env pop cap _ sEnd f_final hfit]
  rfl

/-- C2 witness: on the mock run the solver returns the selected point itself,
compare_fc reports no improvement, and the population comes back unchanged. -/
theorem evolve_final_replacement_witness :
    (evolve mockAlg mockEnv mockPop).2 = Outcome.ok mockPop :=
  (evolve_final_replacement mockAlg mockEnv mockPop mockCap wTL wSEnd [0, 0, 0]
      rfl rfl (by decide) rfl rfl rfl).trans (by rfl)

/-- C4 counterexample: when the host fitness evaluation throws during the
final re-evaluation, the exception propagates and neither the status-message
routine nor the free routine is ever invoked, contradicting the claim that
they run exactly once on every exit path. -/
theorem teardown_skipped_on_exception :
    (evolve mockAlg mockEnv mockPopBoom).2 = Outcome.exn "boom"
    ∧ countE Event.statusMsg (evolve mockAlg mockEnv mockPopBoom).1 = 0
    ∧ countE Event.free (evolve mockAlg mockEnv mockPopBoom).1 = 0 :=
  ⟨rfl, by decide, by decide⟩

/-- C4 (amended): on every exit path of evolve on which no exception escapes
(the loop reaches a terminal status, success or error alike, and the final
re-evaluation succeeds), the status-message routine and then the free routine
are each invoked exactly once, in that order, as the last two events. -/
theorem teardown_on_normal_exit (alg : WorhpAlg) (env : Env) (pop : Population)
    (p' : Population) (h : (evolve alg env pop).2 = Outcome.ok p') :
    countE Event.statusMsg (evolve alg env pop).1 = 1
    ∧ countE Event.free (evolve alg env pop).1 = 1
    ∧ ∃ t, (evolve alg env pop).1 = t ++ [Event.statusMsg, Event.free] := by
  unfold evolve at h ⊢
  dsimp only at h ⊢
  by_cases h1 : pop.prob.nobj ≠ 1
  · rw [if_pos h1] at h
    exact absurd h (by simp)
  rw [if_neg h1] at h ⊢
  by_cases h2 : pop.prob.stochastic = true
  · rw [if_pos h2] at h
    exact absurd h (by simp)
  rw [if_neg h2] at h ⊢
  by_cases h3 : pop.size = 0
  · rw [if_pos h3] at h
    exact absurd h (by simp)
  rw [if_neg h3] at h ⊢
  cases hcap : loadCapability alg env with
  | error msg =>
    rw [hcap] at h
    simp at h
  | ok cap =>
    rw [hcap] at h
    dsimp only at h ⊢
    have htL := rcLoop_events cap pop.prob env.fuel (setupPhase env pop cap).state
    cases ho : (rcLoop cap pop.prob env.fuel (setupPhase env pop cap).state).2 with
    | exn e =>
      rw [ho] at h
      simp at h
    | diverge =>
      rw [ho] at h
      simp at h
    | ok sEnd =>
      rw [ho] at h
      dsimp only at h ⊢
      cases hfit : pop.prob.fitness (xFinal pop.prob sEnd) with
      | error e =>
        rw [finishPhase_fit_error env pop cap _ sEnd e hfit] at h
        simp at h
      | ok f_final =>
        rw [finishPhase_fit_ok env pop cap _ sEnd f_final hfit] at h ⊢
        have cS : countE Event.statusMsg
            (rcLoop cap pop.prob env.fuel (setupPhase env pop cap).state).1 = 0 :=
          countE_zero_of_turn_events Event.statusMsg rfl _ htL
        have cF : countE Event.free
            (rcLoop cap pop.prob env.fuel (setupPhase env pop cap).state).1 = 0 :=
          countE_zero_of_turn_events Event.free rfl _ htL
        refine ⟨?_, ?_, ?_⟩
        · rw [countE_cons, setupPhase_trace, countE_append, countE_append, cS]
          dsimp only
          decide
        · rw [countE_cons, setupPhase_trace, countE_append, countE_append, cF]
          dsimp only
          decide
        · exact ⟨Event.libLoad :: ((setupPhase env pop cap).trace
            ++ (rcLoop cap pop.prob env.fuel (setupPhase env pop cap).state).1), by simp⟩

/-- C4 witness: a successful mock run in which the teardown pair appears
exactly once at the end of the trace. -/
theorem teardown_on_normal_exit_witness :
    (evolve mockAlg mockEnv mockPop).2 = Outcome.ok mockPop
    ∧ countE Event.statusMsg (evolve mockAlg mockEnv mockPop).1 = 1 :=
  ⟨rfl, (teardown_on_normal_exit mockAlg mockEnv mockPop mockPop rfl).1⟩

/-- C8 (evaluation of the code against the claim): on every path of evolve,
for any inputs, the driver performs no write at all to the
feasibility-tolerance parameter — the write count is zero, not the single
documented override; the only driver writes to the parameter record are the
five fixed setup writes. -/
theorem tolfeas_never_written (alg : WorhpAlg) (env : Env) (pop : Population) :
    countE (Event.parWrite ParField.TolFeas) (evolve alg env pop).1 = 0 := by
  unfold evolve
  dsimp only
  by_cases h1 : pop.prob.nobj ≠ 1
  · rw [if_pos h1]
    rfl
  rw [if_neg h1]
  by_cases h2 : pop.prob.stochastic = true
  · rw [if_pos h2]
    rfl
  rw [if_neg h2]
  by_cases h3 : pop.size = 0
  · rw [if_pos h3]
    rfl
  rw [if_neg h3]
  cases hcap : loadCapability alg env with
  | error msg => rfl
  | ok cap =>
    dsimp only
    have htL := rcLoop_events cap pop.prob env.fuel (setupPhase env pop cap).state
    have cL : countE (Event.parWrite ParField.TolFeas)
        (rcLoop cap pop.prob env.fuel (setupPhase env pop cap).state).1 = 0 :=
      countE_zero_of_turn_events (Event.parWrite ParField.TolFeas) rfl _ htL
    cases ho : (rcLoop cap pop.prob env.fuel (setupPhase env pop cap).state).2 with
    | ok sEnd =>
      dsimp only
      cases hfit : pop.prob.fitness (xFinal pop.prob sEnd) with
      | error e =>
        rw [finishPhase_fit_error env pop cap _ sEnd e hfit]
        rw [countE_cons, setupPhase_trace, countE_append, countE_append, cL]
        dsimp only
        decide
      | ok f_final =>
        rw [finishPhase_fit_ok env pop cap _ sEnd f_final hfit]
        rw [countE_cons, setupPhase_trace, countE_append, countE_append, cL]
        dsimp only
        decide
    | exn e =>
      rw [countE_cons, setupPhase_trace, countE_append, cL]
      decide
    | diverge =>
      rw [countE_cons, setupPhase_trace, countE_append, cL]
      decide
